import Mathlib

/-!
Verification of the enemy-behavior core of the fps-game repository.

The definitions below are a shallow embedding of the JavaScript sources:
  - src/js/entities/Player.js   (Enemy class, EnemyTypes table, PhysicsSystem)
  - src/js/systems/WeaponSystem.js  (AISystem)
  - src/js/wasm/wasm-interface.js   (WasmInterface and its JavaScript mock backends)

JavaScript numbers are modelled as rationals (the arithmetic exercised by the
statements below is exact, so IEEE rounding is immaterial), fallible calls as
Except, and the in-place mutation of entity objects as explicit state passing.
-/

namespace FpsGame

/-- A 3D vector with rational coordinates, standing for THREE.Vector3. -/
structure Vec3 where
  x : ℚ
  y : ℚ
  z : ℚ
deriving DecidableEq

def Vec3.zero : Vec3 := ⟨0, 0, 0⟩

/-- Squared Euclidean distance between two points.  The sources compare the
linear distance (THREE.Vector3.distanceTo) against a bound; every such
comparison below is phrased on squares, which is equivalent for nonnegative
bounds and keeps the embedding inside the rationals. -/
def sqDist (a b : Vec3) : ℚ :=
  (a.x - b.x) ^ 2 + (a.y - b.y) ^ 2 + (a.z - b.z) ^ 2

/-! ## Enemy data model (src/js/entities/Player.js, Enemy class and EnemyTypes) -/

/-- The finite-state-machine states of the Enemy AI (the string states of
Enemy.update in the source). -/
inductive EnemyState where
  | idle
  | patrol
  | chase
  | attack
  | search
  | takeCover
  | flank
  | dead
deriving DecidableEq

/-- The enemy type tags of the EnemyTypes table.  The source passes them as
strings ("GRUNT", "SNIPER", ...); an unrecognized string falls back to GRUNT
in configureEnemyType, so the recognized tags form this finite enumeration. -/
inductive EnemyTag where
  | GRUNT
  | SNIPER
  | TANK
  | SCOUT
  | BOSS
deriving DecidableEq

/-- The behaviorType strings of the EnemyTypes table, as an enumeration
("chase", "ranged", "tank", "scout", "boss"). -/
inductive BehaviorKind where
  | chase
  | ranged
  | tank
  | scout
  | boss
deriving DecidableEq

/-- One row of the EnemyTypes table (the fields read by configureEnemyType). -/
structure EnemyTypeCfg where
  health : ℚ
  damage : ℚ
  speed : ℚ
  attackRange : ℚ
  attackRate : ℚ
  behaviorType : BehaviorKind
deriving DecidableEq

/-- The EnemyTypes table, restricted to the simulation-relevant columns. -/
def lookupEnemyType : EnemyTag → EnemyTypeCfg
  | .GRUNT =>
    { health := 100, damage := 10, speed := 5, attackRange := 2, attackRate := 1,
      behaviorType := .chase }
  | .SNIPER =>
    { health := 70, damage := 25, speed := 4, attackRange := 30, attackRate := 3,
      behaviorType := .ranged }
  | .TANK =>
    { health := 200, damage := 20, speed := 3, attackRange := 3, attackRate := 2,
      behaviorType := .tank }
  | .SCOUT =>
    { health := 60, damage := 8, speed := 8, attackRange := 5, attackRate := 1/2,
      behaviorType := .scout }
  | .BOSS =>
    { health := 500, damage := 30, speed := 4, attackRange := 5, attackRate := 3/2,
      behaviorType := .boss }

/-- The damage source passed to Enemy.takeDamage: the attacking entity, of
which the method reads mesh.position and isPlayer. -/
structure DamageSource where
  position : Vec3
  isPlayer : Bool
deriving DecidableEq

/-- The Enemy entity state: the fields of the Enemy class that the AI core
reads or writes (mesh/animation/audio handles are presentation collaborators
and carry no simulation state used by these claims). -/
structure Enemy where
  health : ℚ
  maxHealth : ℚ
  speed : ℚ
  turnSpeed : ℚ
  damage : ℚ
  attackRange : ℚ
  sightRange : ℚ
  hearingRange : ℚ
  attackCooldown : ℚ
  isAlive : Bool
  isAware : Bool
  state : EnemyState
  target : Option DamageSource
  lastKnownTargetPosition : Vec3
  type : EnemyTag
  enemyType : EnemyTypeCfg
  takeCover : Bool
  flanking : Bool
  callReinforcements : Bool
  pointValue : ℚ
  wasKilledByPlayer : Bool
deriving DecidableEq

/-- The field initializations of the Enemy constructor before
configureEnemyType runs (Enemy constructor, basic properties and AI state).
Fields first assigned later in the constructor body start at their pre-first-
assignment values. -/
def baseEnemy (t : EnemyTag) : Enemy :=
  { health := 100, maxHealth := 100, speed := 3, turnSpeed := 3, damage := 10,
    attackRange := 2, sightRange := 20, hearingRange := 15, attackCooldown := 1,
    isAlive := true, isAware := false, state := .idle, target := none,
    lastKnownTargetPosition := Vec3.zero, type := t,
    enemyType := lookupEnemyType .GRUNT, takeCover := false, flanking := false,
    callReinforcements := false, pointValue := 0, wasKilledByPlayer := false }

/-- Enemy.configureEnemyType: looks the tag up in EnemyTypes (an unknown
string defaults to GRUNT, which the EnemyTag enumeration absorbs), copies the
stat block, then applies the behaviorType switch.  The mesh-color and scale
assignments are visual-only and omitted. -/
def configureEnemyType (e : Enemy) (t : EnemyTag) : Enemy :=
  let cfg := lookupEnemyType t
  let e := { e with enemyType := cfg, health := cfg.health, maxHealth := cfg.health,
                    damage := cfg.damage, speed := cfg.speed,
                    attackRange := cfg.attackRange, attackCooldown := cfg.attackRate }
  match cfg.behaviorType with
  | .ranged => { e with sightRange := 30, hearingRange := 20, takeCover := true }
  | .tank => { e with turnSpeed := 2, hearingRange := 10 }
  | .scout => { e with sightRange := 25, hearingRange := 25, flanking := true }
  | .boss => { e with sightRange := 40, hearingRange := 30, callReinforcements := true }
  | .chase => e

/-- The base-point table of Enemy.calculatePointValue. -/
def basePoints : EnemyTag → ℚ
  | .GRUNT => 50
  | .SNIPER => 100
  | .TANK => 150
  | .SCOUT => 125
  | .BOSS => 500

/-- Enemy.calculatePointValue: sets pointValue from the base-point table. -/
def calculatePointValue (e : Enemy) : Enemy :=
  { e with pointValue := basePoints e.type }

/-- The Enemy constructor.  Assignment order follows the source: the basic
fields, then configureEnemyType(type), then the advanced-behavior options
(takeCover, flanking, callReinforcements) are initialized to false, then
pointValue is initialized to 0.  The constructor calls the async createMesh
without awaiting it; createMesh suspends at its first await and its
continuation, which ends by calling calculatePointValue, runs as a microtask
after the constructor body, so the post-construction pointValue is the
base-point value for the type. -/
def mkEnemy (t : EnemyTag) : Enemy :=
  let e := baseEnemy t
  let e := configureEnemyType e t
  let e := { e with takeCover := false, flanking := false, callReinforcements := false }
  let e := { e with pointValue := 0 }
  calculatePointValue e

/-- Observable notifications emitted by the core to its collaborators; the
enemyKilled event carries the point value handed to the mission/scoring
collaborator. -/
inductive GameEvent where
  | enemyKilled (points : ℤ) (type : EnemyTag) (byPlayer : Bool)
deriving DecidableEq

/-- Enemy.getPointValue: base value plus 20 percent if the enemy was aware
plus 30 percent if its (current) health exceeds 90 percent of maxHealth,
rounded down with Math.floor. -/
def getPointValue (e : Enemy) : ℤ :=
  let points := e.pointValue
  let bonus1 : ℚ := if e.isAware then points * (2/10) else 0
  let bonus2 : ℚ := if e.health > e.maxHealth * (9/10) then points * (3/10) else 0
  ⌊points + (bonus1 + bonus2)⌋

/-- Enemy.die: clears the alive flag, enters the dead state, records a player
kill, and emits the enemyKilled event whose points field is getPointValue
evaluated on the current (post-damage) state.  Death animation, sound,
particles and the delayed mesh removal are fire-and-forget collaborator calls
with no effect on the simulation state. -/
def die (e : Enemy) (source : Option DamageSource) : Enemy × List GameEvent :=
  let e := { e with isAlive := false, state := .dead }
  let e := if (source.map (·.isPlayer)).getD false then
             { e with wasKilledByPlayer := true } else e
  (e, [.enemyKilled (getPointValue e) e.type e.wasKilledByPlayer])

/-- Enemy.takeDamage: subtracts the amount from health; if a source is given
and the enemy was not yet aware it becomes aware, targets the source, enters
chase and records the source position; if the resulting health is at most 0
it calls die.  The returned list collects the events emitted by the call. -/
def takeDamage (e : Enemy) (amount : ℚ) (source : Option DamageSource) :
    Enemy × List GameEvent :=
  let e := { e with health := e.health - amount }
  let e : Enemy := match source with
    | some s =>
        if e.isAware = false then
          { e with isAware := true, target := some s, state := .chase,
                   lastKnownTargetPosition := s.position }
        else e
    | none => e
  if e.health ≤ 0 then die e source else (e, [])

/-! ## PhysicsSystem (src/js/entities/Player.js, PhysicsSystem class) -/

/-- A dynamic entity as seen by PhysicsSystem.update: it has a mesh position,
a velocity, a bounding sphere (geometry bounding-sphere radius scaled by the
largest mesh scale factor) and the onGround flag; the id stands for the
object identity used to tell entities apart. -/
structure PhysEntity where
  id : ℕ
  position : Vec3
  velocity : Vec3
  radius : ℚ
  onGround : Bool
deriving DecidableEq

/-- PhysicsSystem.gravity (9.8). -/
def gravity : ℚ := 98/10

/-- The vertical position an entity would reach in one Euler step: velocity
is updated by gravity first, then position by the new velocity. -/
def integratedY (e : PhysEntity) (dt : ℚ) : ℚ :=
  e.position.y + (e.velocity.y - gravity * dt) * dt

/-- The JavaScript-fallback branch of PhysicsSystem._processPhysicsBatch:
Euler gravity integration of the y axis followed by the ground clamp, which
also sets onGround (true when clamped, false otherwise). -/
def applyGravityJS (e : PhysEntity) (dt : ℚ) : PhysEntity :=
  let vy := e.velocity.y - gravity * dt
  let py := e.position.y + vy * dt
  if py < 0 then
    { e with position := { e.position with y := 0 },
             velocity := { e.velocity with y := 0 }, onGround := true }
  else
    { e with position := { e.position with y := py },
             velocity := { e.velocity with y := vy }, onGround := false }

/-- The accelerated branch: WasmInterface.applyGravity, whose in-repo
implementation is createMockPhysicsSystem.applyGravity in
src/js/wasm/wasm-interface.js.  Identical Euler step and clamp of position.y
and velocity.y, but it never touches a grounded flag. -/
def applyGravityWasm (p v : Vec3) (dt : ℚ) : Vec3 × Vec3 :=
  let vy := v.y - (98/10) * dt
  let py := p.y + vy * dt
  if py < 0 then ({ p with y := 0 }, { v with y := 0 })
  else ({ p with y := py }, { v with y := vy })

/-- The per-entity part of PhysicsSystem._processPhysicsBatch with no static
collider within the 5-unit prefilter (the _handleStaticCollisions loop then
visits nothing): the accelerated gravity path when useWasm, the JavaScript
fallback otherwise. -/
def stepEntity (useWasm : Bool) (e : PhysEntity) (dt : ℚ) : PhysEntity :=
  if useWasm then
    let pv := applyGravityWasm e.position e.velocity dt
    { e with position := pv.1, velocity := pv.2 }
  else applyGravityJS e dt

/-- Repeated ticks of the per-entity physics step at dt = 1 second. -/
def iterateStep (useWasm : Bool) : ℕ → PhysEntity → PhysEntity
  | 0, e => e
  | n + 1, e => iterateStep useWasm n (stepEntity useWasm e 1)

/-- PhysicsSystem._checkCollision: bounding-sphere overlap, true iff the
distance between the centers is strictly below the radius sum.  The source
compares the linear distance; this states the same predicate on squares,
which is equivalent because the distance is nonnegative. -/
def checkCollision (a b : PhysEntity) : Bool :=
  decide (0 < a.radius + b.radius ∧
          sqDist a.position b.position < (a.radius + b.radius) ^ 2)

/-- PhysicsSystem._handleDynamicCollisions: the double loop over index pairs
i < j; every overlapping pair goes to _resolveDynamicCollision, which invokes
the collision callback of each of the two entities once.  The result lists
the id pairs, in loop order, whose callbacks fire. -/
def handleDynamicCollisions : List PhysEntity → List (ℕ × ℕ)
  | [] => []
  | a :: rest =>
      (rest.filter (fun b => checkCollision a b)).map (fun b => (a.id, b.id))
        ++ handleDynamicCollisions rest

/-- The batch slicing of PhysicsSystem.update: consecutive slices of size 10
(the batchSize constant), i.e. slice(b*10, min((b+1)*10, n)) for each b. -/
def batches10 : List PhysEntity → List (List PhysEntity)
  | [] => []
  | b1 :: b2 :: b3 :: b4 :: b5 :: b6 :: b7 :: b8 :: b9 :: b10 :: rest =>
      [b1, b2, b3, b4, b5, b6, b7, b8, b9, b10] :: batches10 rest
  | l => [l]

/-- The gravity/integration phase of one batch: the per-entity step applied
to each member. -/
def gravityPhase (useWasm : Bool) (dt : ℚ) (batch : List PhysEntity) :
    List PhysEntity :=
  batch.map (fun e => stepEntity useWasm e dt)

/-- PhysicsSystem.update restricted to its dynamic-collision notifications:
entities are processed in batches of 10, each batch is integrated and then
_handleDynamicCollisions runs on that batch only.  The result lists the id
pairs whose collision callbacks fire during the tick. -/
def updateTickEvents (useWasm : Bool) (dt : ℚ) (entities : List PhysEntity) :
    List (ℕ × ℕ) :=
  ((batches10 entities).map
    (fun batch => handleDynamicCollisions (gravityPhase useWasm dt batch))).flatten

/-! ## AISystem and the behavior-evaluator boundary
(src/js/systems/WeaponSystem.js, AISystem class, and
src/js/wasm/wasm-interface.js) -/

/-- Abstraction of the loaded level geometry: intersectSeg a b tells whether
the raycast performed by AISystem.hasLineOfSight (THREE.Raycaster with origin
a, direction the normalization of b - a, near 0 and far the distance from a
to b, intersected with the level mesh) reports a hit.  THREE.Vector3
normalization divides by the length or by 1 when the length is zero, so the
zero-length segment raises no division error and is a raycast of range 0. -/
structure LevelGeom where
  intersectSeg : Vec3 → Vec3 → Bool

/-- AISystem.hasLineOfSight: false when no game engine (hence no level) is
attached, else true iff the level-mesh raycast along the segment reports no
intersection. -/
def hasLineOfSight (lvl : Option LevelGeom) (a b : Vec3) : Bool :=
  match lvl with
  | none => false
  | some g => !(g.intersectSeg a b)

/-- Modelled from the spec: the BehaviorContext held behind the WebAssembly
boundary is Rust code absent from src/.  Per the spec it carries the entity
position, target position, health/maxHealth, and named numeric slots written
with set_value and read with get_value; the JavaScript side reads the slots
"action" and "action_parameter" and writes "target_visible" and the numbered
"cooldown_i" slots.  An unwritten slot reads as 0. -/
structure BehaviorContext where
  entityPosition : Vec3
  targetPosition : Vec3
  health : ℚ
  maxHealth : ℚ
  values : List (String × ℚ)
deriving DecidableEq

def BehaviorContext.set_value (c : BehaviorContext) (k : String) (v : ℚ) :
    BehaviorContext :=
  { c with values := (k, v) :: c.values }

def BehaviorContext.get_value (c : BehaviorContext) (k : String) : ℚ :=
  match c.values.lookup k with
  | some v => v
  | none => 0

/-- The accelerated behavior tree at the WasmInterface boundary: evaluate
either returns a result code together with the updated context, or throws,
leaving the context as mutated up to the throw point. -/
structure BehaviorTree where
  evaluate : BehaviorContext → Except (String × BehaviorContext) (ℤ × BehaviorContext)

/-- WasmInterface.evaluateBehaviorTree: tree.evaluate(context) inside a
try/catch; a throw is logged as a warning and the call returns 0 (the FAILURE
code). -/
def wasmEvaluateBehaviorTree (tree : BehaviorTree) (c : BehaviorContext) :
    ℤ × BehaviorContext :=
  match tree.evaluate c with
  | .ok rc => rc
  | .error ec => (0, ec.2)

/-- The context refresh performed by AISystem.evaluateBehaviorTree before
evaluating: entity position, target position when one is given, health, and
the freshly computed target_visible flag (line of sight, computed only when
both a target position and the game engine are present). -/
def refreshContext (lvl : Option LevelGeom) (c : BehaviorContext)
    (position : Vec3) (targetPosition : Option Vec3) (health maxHealth : ℚ) :
    BehaviorContext :=
  let c := { c with entityPosition := position }
  let c : BehaviorContext := match targetPosition with
    | some t => { c with targetPosition := t }
    | none => c
  let c := { c with health := health, maxHealth := maxHealth }
  let targetVisible : Bool := match targetPosition with
    | some t => hasLineOfSight lvl position t
    | none => false
  c.set_value "target_visible" (if targetVisible then 1 else 0)

/-- The record AISystem.evaluateBehaviorTree hands back to the controller. -/
structure EvalResult where
  result : ℤ
  action : ℚ
  parameter : ℚ
deriving DecidableEq

/-- AISystem.evaluateBehaviorTree: with the accelerated interface loaded and
a tree and context registered for the entity, refresh the context, evaluate
through the WasmInterface try/catch, and read the action outputs back from
the context; in every other case return the constant fallback record
(result 1, action 0, parameter 5). -/
def evaluateBehaviorTree (lvl : Option LevelGeom) (wasmLoaded : Bool)
    (tree : Option BehaviorTree) (ctx : Option BehaviorContext)
    (position : Vec3) (targetPosition : Option Vec3) (health maxHealth : ℚ) :
    EvalResult :=
  match wasmLoaded, tree, ctx with
  | true, some t, some c =>
      let c := refreshContext lvl c position targetPosition health maxHealth
      let rc := wasmEvaluateBehaviorTree t c
      { result := rc.1, action := rc.2.get_value "action",
        parameter := rc.2.get_value "action_parameter" }
  | _, _, _ => { result := 1, action := 0, parameter := 5 }

/-- One slot update of the AISystem.update cooldown loop: a positive slot is
decremented by dt, any other value is left alone. -/
def stepCooldownSlot (c : BehaviorContext) (k : String) (dt : ℚ) :
    BehaviorContext :=
  let v := c.get_value k
  if v > 0 then c.set_value k (v - dt) else c

/-- The slot names visited by the AISystem.update loop (cooldown_i for
i = 1 .. 10). -/
def slotKeys : List String :=
  ["cooldown_1", "cooldown_2", "cooldown_3", "cooldown_4", "cooldown_5",
   "cooldown_6", "cooldown_7", "cooldown_8", "cooldown_9", "cooldown_10"]

/-- AISystem.update restricted to one behavior context: the loop over the
slots cooldown_1 .. cooldown_10. -/
def updateCooldowns (c : BehaviorContext) (dt : ℚ) : BehaviorContext :=
  slotKeys.foldl (fun c k => stepCooldownSlot c k dt) c

/-- The in-repo accelerated path-existence check: WasmInterface.findPath
resolves to createMockPathfinder.findPath, which reports false when any grid
coordinate reaches the 100-cell grid bound and true otherwise. -/
def mockFindPath (sx sy ex ey : ℤ) : Bool :=
  !(decide (100 ≤ sx) || decide (100 ≤ sy) || decide (100 ≤ ex) ||
    decide (100 ≤ ey))

/-- AISystem.findPath: with the accelerated interface loaded, both points are
converted to grid cells (floor of x and z with a +50 offset, cell size 1) and
the path-existence check is consulted; on success the returned route is the
placeholder [end].  Otherwise, and when the existence check fails, the
fallback applies: [end] when there is line of sight from start to end, else
the midpoint with y forced to ground level 1 followed by end. -/
def findPath (lvl : Option LevelGeom) (wasmLoaded : Bool) (s e : Vec3) :
    List Vec3 :=
  let fallback : List Vec3 :=
    if hasLineOfSight lvl s e then [e]
    else [{ x := (s.x + e.x) / 2, y := 1, z := (s.z + e.z) / 2 }, e]
  if wasmLoaded then
    let startX := ⌊s.x⌋ + 50
    let startY := ⌊s.z⌋ + 50
    let endX := ⌊e.x⌋ + 50
    let endY := ⌊e.z⌋ + 50
    if mockFindPath startX startY endX endY then [e] else fallback
  else fallback

/-! ## Concrete instances used by the closed statements below -/

/-- A coincident unit-radius entity with a given id. -/
def cexEntity (i : ℕ) : PhysEntity :=
  { id := i, position := Vec3.zero, velocity := Vec3.zero, radius := 1,
    onGround := false }

/-- Eleven coincident unit-radius entities: one more than the batch size. -/
def cexEntities : List PhysEntity :=
  [cexEntity 0, cexEntity 1, cexEntity 2, cexEntity 3, cexEntity 4,
   cexEntity 5, cexEntity 6, cexEntity 7, cexEntity 8, cexEntity 9,
   cexEntity 10]

/-- An entity dropped from height 5 with zero velocity. -/
def droppedEntity : PhysEntity :=
  { id := 0, position := ⟨0, 5, 0⟩, velocity := Vec3.zero, radius := 1,
    onGround := false }

/-- A behavior tree whose accelerated evaluate always throws. -/
def throwingTree : BehaviorTree :=
  { evaluate := fun c => .error ("forced failure", c) }

/-- An empty behavior context. -/
def ctx0 : BehaviorContext :=
  { entityPosition := Vec3.zero, targetPosition := Vec3.zero, health := 100,
    maxHealth := 100, values := [] }

/-- A behavior context with the first cooldown slot at one half. -/
def ctxHalf : BehaviorContext :=
  { ctx0 with values := [("cooldown_1", 1/2)] }

/-- A behavior context with the second cooldown slot at five. -/
def ctxFive : BehaviorContext :=
  { ctx0 with values := [("cooldown_2", 5)] }

/-- A level whose raycast never reports a hit. -/
def emptyLevel : LevelGeom := { intersectSeg := fun _ _ => false }

/-! ## Theorems -/

/-- C1 counterexample: a GRUNT (health 100) hit for 150 with no source ends
the call with health -50: Enemy.takeDamage does not clamp health at 0, so the
claimed invariant 0 <= health fails. -/
theorem takeDamage_overkill_cex :
    (takeDamage (mkEnemy .GRUNT) 150 none).1.health = -50 ∧
      ¬ (0 ≤ (takeDamage (mkEnemy .GRUNT) 150 none).1.health) := by
  norm_num [takeDamage, mkEnemy, baseEnemy, configureEnemyType, calculatePointValue,
    lookupEnemyType, die, getPointValue, basePoints]

/-- C1 (amended): Enemy.takeDamage subtracts the amount with no lower clamp:
whenever the amount exceeds the current health, the resulting health equals
health - amount, which is strictly negative, and the death transition fires
(state becomes dead); health is not clamped to 0. -/
theorem takeDamage_no_clamp (e : Enemy) (amt : ℚ) (src : Option DamageSource)
    (hover : e.health < amt) :
    (takeDamage e amt src).1.health = e.health - amt ∧
      (takeDamage e amt src).1.health < 0 ∧
      (takeDamage e amt src).1.state = .dead := by
  have h : e.health - amt ≤ 0 := by linarith
  have h2 : e.health - amt < 0 := by linarith
  cases src with
  | none => simp [takeDamage, die, h, h2, apply_ite]
  | some s =>
    cases haw : e.isAware <;> simp [takeDamage, die, h, h2, haw, apply_ite]

/-- Witness for C1: a SCOUT (health 60) hit for 100 ends at health -40. -/
theorem takeDamage_no_clamp_witness :
    (takeDamage (mkEnemy .SCOUT) 100 none).1.health = (mkEnemy .SCOUT).health - 100 ∧
      (takeDamage (mkEnemy .SCOUT) 100 none).1.health < 0 ∧
      (takeDamage (mkEnemy .SCOUT) 100 none).1.state = .dead := by
  refine takeDamage_no_clamp (mkEnemy .SCOUT) 100 none ?_
  norm_num [mkEnemy, baseEnemy, configureEnemyType, calculatePointValue, lookupEnemyType]

/-- C2 (amended): the death transition is not guarded by the alive flag:
takeDamage emits the kill notification (calls die) exactly when the
post-damage health is nonpositive, whatever the alive flag holds, so damage
dealt to an already dead enemy fires the transition again. -/
theorem die_fires_iff_health_nonpos (e : Enemy) (amt : ℚ) (src : Option DamageSource) :
    (takeDamage e amt src).2.length = if e.health - amt ≤ 0 then 1 else 0 := by
  rcases src with _ | s
  · by_cases h : e.health - amt ≤ 0 <;> simp [takeDamage, die, h, apply_ite]
  · by_cases h : e.health - amt ≤ 0 <;> cases haw : e.isAware <;>
      simp [takeDamage, die, h, haw, apply_ite]

/-- C2 counterexample: a GRUNT killed by a 120-damage hit emits the kill
notification and clears the alive flag; a further 10-damage hit on the dead
enemy emits the kill notification a second time: the death transition fires
twice over the lifetime of the entity. -/
theorem die_refires_cex :
    (takeDamage (mkEnemy .GRUNT) 120 none).1.isAlive = false ∧
    (takeDamage (mkEnemy .GRUNT) 120 none).2.length = 1 ∧
    (takeDamage (takeDamage (mkEnemy .GRUNT) 120 none).1 10 none).2.length = 1 := by
  norm_num [takeDamage, mkEnemy, baseEnemy, configureEnemyType, calculatePointValue,
    lookupEnemyType, die, getPointValue, basePoints]

/-- C3: a BOSS at full health (500), made aware by a 25-damage player hit
(health 475, still above 90 percent of 500) and then killed by a 475-damage
player hit, hands 600 points to the scoring collaborator, not 750:
getPointValue runs inside die after health has already been reduced to 0, so
the +30 percent quick-kill bonus (health above 0.9 * maxHealth) can never
apply at the moment of death and only the +20 percent aware bonus counts:
floor(500 * 1.2) = 600. -/
theorem boss_kill_points_600 :
    (takeDamage (takeDamage (mkEnemy .BOSS) 25 (some ⟨Vec3.zero, true⟩)).1 475
        (some ⟨Vec3.zero, true⟩)).2 = [.enemyKilled 600 .BOSS true] ∧
      (600 : ℤ) ≠ 750 := by
  norm_num [takeDamage, mkEnemy, baseEnemy, configureEnemyType, calculatePointValue,
    lookupEnemyType, die, getPointValue, basePoints]

/-- C4: immediately after construction every enemy has takeCover, flanking
and callReinforcements equal to false: configureEnemyType does set the
type-specific flag (last three conjuncts), but the constructor then
re-initializes all three flags to false after the configureEnemyType call, so
a freshly spawned SNIPER has takeCover = false, a SCOUT has flanking = false
and a BOSS has callReinforcements = false, contradicting the claim. -/
theorem spawn_flags_reset_false :
    (mkEnemy .SNIPER).takeCover = false ∧ (mkEnemy .SCOUT).flanking = false ∧
    (mkEnemy .BOSS).callReinforcements = false ∧
    (configureEnemyType (baseEnemy .SNIPER) .SNIPER).takeCover = true ∧
    (configureEnemyType (baseEnemy .SCOUT) .SCOUT).flanking = true ∧
    (configureEnemyType (baseEnemy .BOSS) .BOSS).callReinforcements = true := by
  norm_num [mkEnemy, baseEnemy, configureEnemyType, calculatePointValue, lookupEnemyType]

/-- C10: takeDamage on a live enemy with a positive non-lethal amount and no
source changes only health (it becomes health - amount): the awareness flag,
the FSM state, the target and the last known target position are all
unchanged and no event is emitted. -/
theorem takeDamage_no_source_only_health (e : Enemy) (amt : ℚ)
    (halive : e.isAlive = true) (hpos : 0 < amt) (hlt : amt < e.health) :
    takeDamage e amt none = ({ e with health := e.health - amt }, []) := by
  have h : ¬ (e.health - amt ≤ 0) := by linarith
  simp [takeDamage, h]

/-- Witness for C10: a GRUNT hit for 30 with no source. -/
theorem takeDamage_no_source_only_health_witness :
    takeDamage (mkEnemy .GRUNT) 30 none
      = ({ mkEnemy .GRUNT with health := (mkEnemy .GRUNT).health - 30 }, []) := by
  refine takeDamage_no_source_only_health (mkEnemy .GRUNT) 30 ?_ (by norm_num) ?_ <;>
    norm_num [mkEnemy, baseEnemy, configureEnemyType, calculatePointValue, lookupEnemyType]


theorem stepEntity_clamp (b : Bool) (e : PhysEntity) (dt : ℚ)
    (h : integratedY e dt < 0) :
    (stepEntity b e dt).position.y = 0 ∧ (stepEntity b e dt).velocity.y = 0 := by
  have h' : e.position.y + (e.velocity.y - gravity * dt) * dt < 0 := h
  cases b <;>
    simp [stepEntity, applyGravityJS, applyGravityWasm, gravity] at h' ⊢
  all_goals simp [h']

theorem iterateStep_ground (b : Bool) (n : ℕ) (e : PhysEntity)
    (hy : e.position.y = 0) (hv : e.velocity.y = 0) :
    (iterateStep b n e).position.y = 0 ∧ (iterateStep b n e).velocity.y = 0 := by
  induction n generalizing e with
  | zero => exact ⟨hy, hv⟩
  | succ m ih =>
    have hstep := stepEntity_clamp b e 1 (by simp [integratedY, gravity, hy, hv])
    exact ih (stepEntity b e 1) hstep.1 hstep.2

/-- C7 (amended): on both gravity paths, an entity whose integrated
position.y falls below 0 ends the step with position.y = 0 and
velocity.y = 0, and an entity dropped from y = 5 with zero vertical velocity
reaches y = 0 with velocity.y = 0 after one or more dt = 1 ticks on either
path; but only the software path marks the entity grounded (onGround = true):
the accelerated path leaves the onGround flag unchanged. -/
theorem ground_clamp_amended :
    (∀ (e : PhysEntity) (dt : ℚ), integratedY e dt < 0 →
        (stepEntity false e dt).position.y = 0 ∧
        (stepEntity false e dt).velocity.y = 0 ∧
        (stepEntity false e dt).onGround = true ∧
        (stepEntity true e dt).position.y = 0 ∧
        (stepEntity true e dt).velocity.y = 0 ∧
        (stepEntity true e dt).onGround = e.onGround) ∧
    (∀ (b : Bool) (n : ℕ) (e : PhysEntity), 1 ≤ n →
        e.position.y = 5 → e.velocity.y = 0 →
        (iterateStep b n e).position.y = 0 ∧
        (iterateStep b n e).velocity.y = 0) := by
  constructor
  · intro e dt h
    have h' : e.position.y + (e.velocity.y - gravity * dt) * dt < 0 := h
    refine ⟨?_, ?_, ?_, ?_, ?_, ?_⟩ <;>
      simp [stepEntity, applyGravityJS, applyGravityWasm, gravity] at h' ⊢ <;>
      simp [h']
  · intro b n e hn hy hv
    obtain ⟨m, rfl⟩ : ∃ m, n = m + 1 := ⟨n - 1, by omega⟩
    have hstep := stepEntity_clamp b e 1
      (by simp [integratedY, gravity, hy, hv]; norm_num)
    exact iterateStep_ground b m (stepEntity b e 1) hstep.1 hstep.2

/-- Witness for C7: the dropped entity reaches the ground on both paths. -/
theorem ground_clamp_amended_witness :
    (iterateStep true 3 droppedEntity).position.y = 0 ∧
    (iterateStep true 3 droppedEntity).velocity.y = 0 ∧
    (iterateStep false 2 droppedEntity).position.y = 0 ∧
    (iterateStep false 2 droppedEntity).velocity.y = 0 := by
  have h1 := ground_clamp_amended.2 true 3 droppedEntity (by norm_num)
    (by norm_num [droppedEntity]) (by norm_num [droppedEntity, Vec3.zero])
  have h2 := ground_clamp_amended.2 false 2 droppedEntity (by norm_num)
    (by norm_num [droppedEntity]) (by norm_num [droppedEntity, Vec3.zero])
  exact ⟨h1.1, h1.2, h2.1, h2.2⟩

/-- C7 counterexample: the entity dropped from y = 5 integrates below 0 in
one dt = 1 step; the accelerated path clamps position.y and velocity.y to 0
but leaves onGround = false, while the software path sets onGround = true. -/
theorem wasm_path_not_grounded_cex :
    integratedY droppedEntity 1 < 0 ∧
    (stepEntity true droppedEntity 1).position.y = 0 ∧
    (stepEntity true droppedEntity 1).velocity.y = 0 ∧
    (stepEntity true droppedEntity 1).onGround = false ∧
    (stepEntity false droppedEntity 1).onGround = true := by
  norm_num [integratedY, gravity, stepEntity, applyGravityWasm, applyGravityJS,
    droppedEntity, Vec3.zero]


theorem sqDist_comm (a b : Vec3) : sqDist a b = sqDist b a := by
  unfold sqDist; ring

theorem checkCollision_symm (a b : PhysEntity) :
    checkCollision a b = checkCollision b a := by
  unfold checkCollision
  rw [decide_eq_decide, sqDist_comm, add_comm a.radius b.radius]

theorem mem_handleDynamicCollisions {es : List PhysEntity} {p : ℕ × ℕ}
    (hp : p ∈ handleDynamicCollisions es) :
    p.1 ∈ es.map (·.id) ∧ p.2 ∈ es.map (·.id) := by
  induction es with
  | nil => simp [handleDynamicCollisions] at hp
  | cons x rest ih =>
    simp only [handleDynamicCollisions, List.mem_append] at hp
    rcases hp with hp | hp
    · simp only [List.mem_map] at hp
      obtain ⟨b, hbf, rfl⟩ := hp
      have hb := (List.mem_filter.mp hbf).1
      refine ⟨by simp, ?_⟩
      simp only [List.map_cons, List.mem_cons]
      exact Or.inr (List.mem_map_of_mem _ hb)
    · have h := ih hp
      simp only [List.map_cons, List.mem_cons]
      exact ⟨Or.inr h.1, Or.inr h.2⟩

theorem hdc_count_zero_fst {es : List PhysEntity} {p : ℕ × ℕ}
    (h : p.1 ∉ es.map (·.id)) : (handleDynamicCollisions es).count p = 0 := by
  rw [List.count_eq_zero]
  intro hmem
  exact h (mem_handleDynamicCollisions hmem).1

theorem hdc_count_zero_snd {es : List PhysEntity} {p : ℕ × ℕ}
    (h : p.2 ∉ es.map (·.id)) : (handleDynamicCollisions es).count p = 0 := by
  rw [List.count_eq_zero]
  intro hmem
  exact h (mem_handleDynamicCollisions hmem).2

theorem count_mapPairs (k : ℕ) (f : PhysEntity → Bool) (l : List PhysEntity)
    (hnd : (l.map (·.id)).Nodup) (b : PhysEntity) (hb : b ∈ l) :
    ((l.filter f).map (fun y => (k, y.id))).count (k, b.id)
      = if f b then 1 else 0 := by
  induction l with
  | nil => cases hb
  | cons x rest ih =>
    have hnd2 : (∀ y ∈ rest, ¬ y.id = x.id) ∧ (rest.map (·.id)).Nodup := by
      simpa using hnd
    have hx : x.id ∉ rest.map (·.id) := by
      simp only [List.mem_map, not_exists]
      rintro y ⟨hy, hyid⟩
      exact hnd2.1 y hy hyid
    have hnd' : (rest.map (·.id)).Nodup := hnd2.2
    rcases List.mem_cons.mp hb with rfl | hb'
    · by_cases hf : f b
      · rw [List.filter_cons_of_pos hf]
        simp only [List.map_cons]
        rw [List.count_cons_self]
        have hz : ((rest.filter f).map (fun y => (k, y.id))).count (k, b.id) = 0 := by
          rw [List.count_eq_zero]
          intro hmem
          simp only [List.mem_map] at hmem
          obtain ⟨y, hyf, hy⟩ := hmem
          have hid : y.id = b.id := (Prod.mk.injEq _ _ _ _).mp hy |>.2
          exact hx (hid ▸ List.mem_map_of_mem _ (List.mem_filter.mp hyf).1)
        rw [hz, if_pos hf]
      · rw [List.filter_cons_of_neg hf, if_neg hf]
        rw [List.count_eq_zero]
        intro hmem
        simp only [List.mem_map] at hmem
        obtain ⟨y, hyf, hy⟩ := hmem
        have hid : y.id = b.id := (Prod.mk.injEq _ _ _ _).mp hy |>.2
        exact hx (hid ▸ List.mem_map_of_mem _ (List.mem_filter.mp hyf).1)
    · have hxb : x.id ≠ b.id := by
        intro hcontra
        exact hx (hcontra ▸ List.mem_map_of_mem _ hb')
      by_cases hf : f x
      · rw [List.filter_cons_of_pos hf]
        simp only [List.map_cons]
        rw [List.count_cons_of_ne (by simp [hxb.symm]), ih hnd' hb']
      · rw [List.filter_cons_of_neg hf, ih hnd' hb']

theorem count_mapPairs_ne_fst (k q j : ℕ) (f : PhysEntity → Bool)
    (l : List PhysEntity) (h : q ≠ k) :
    ((l.filter f).map (fun y => (k, y.id))).count (q, j) = 0 := by
  rw [List.count_eq_zero]
  intro hmem
  simp only [List.mem_map] at hmem
  obtain ⟨y, _, hy⟩ := hmem
  exact h ((Prod.mk.injEq _ _ _ _).mp hy).1.symm

theorem hdc_count (es : List PhysEntity) (hnd : (es.map (·.id)).Nodup)
    (a b : PhysEntity) (ha : a ∈ es) (hb : b ∈ es) (hne : a.id ≠ b.id) :
    (handleDynamicCollisions es).count (a.id, b.id)
      + (handleDynamicCollisions es).count (b.id, a.id)
      = if checkCollision a b then 1 else 0 := by
  induction es with
  | nil => cases ha
  | cons x rest ih =>
    have hnd2 : (∀ y ∈ rest, ¬ y.id = x.id) ∧ (rest.map (·.id)).Nodup := by
      simpa using hnd
    have hx : x.id ∉ rest.map (·.id) := by
      simp only [List.mem_map, not_exists]
      rintro y ⟨hy, hyid⟩
      exact hnd2.1 y hy hyid
    have hnd' : (rest.map (·.id)).Nodup := hnd2.2
    simp only [handleDynamicCollisions, List.count_append]
    rcases List.mem_cons.mp ha with rfl | ha'
    · rcases List.mem_cons.mp hb with rfl | hb'
      · exact absurd rfl hne
      · have h1 := count_mapPairs a.id (fun y => checkCollision a y) rest hnd' b hb'
        have h2 := count_mapPairs_ne_fst a.id b.id a.id
          (fun y => checkCollision a y) rest (fun hcontra => hne hcontra.symm)
        have h3 : (handleDynamicCollisions rest).count (a.id, b.id) = 0 :=
          hdc_count_zero_fst hx
        have h4 : (handleDynamicCollisions rest).count (b.id, a.id) = 0 :=
          hdc_count_zero_snd hx
        rw [h2, h3, h4]
        simpa using h1
    · rcases List.mem_cons.mp hb with rfl | hb'
      · have h1 := count_mapPairs_ne_fst b.id a.id b.id
          (fun y => checkCollision b y) rest hne
        have h2 := count_mapPairs b.id (fun y => checkCollision b y) rest hnd' a ha'
        have h3 : (handleDynamicCollisions rest).count (a.id, b.id) = 0 :=
          hdc_count_zero_snd hx
        have h4 : (handleDynamicCollisions rest).count (b.id, a.id) = 0 :=
          hdc_count_zero_fst hx
        rw [h1, h3, h4]
        simp only [Nat.zero_add, Nat.add_zero]
        rw [h2]
        simp [checkCollision_symm a b]
      · have hxa : x.id ≠ a.id := fun hcontra =>
          hx (hcontra ▸ List.mem_map_of_mem _ ha')
        have hxb : x.id ≠ b.id := fun hcontra =>
          hx (hcontra ▸ List.mem_map_of_mem _ hb')
        have h1 := count_mapPairs_ne_fst x.id a.id b.id
          (fun y => checkCollision x y) rest (fun hcontra => hxa hcontra.symm)
        have h2 := count_mapPairs_ne_fst x.id b.id a.id
          (fun y => checkCollision x y) rest (fun hcontra => hxb hcontra.symm)
        rw [h1, h2, Nat.zero_add, Nat.zero_add]
        exact ih hnd' ha' hb'

theorem stepEntity_id (b : Bool) (e : PhysEntity) (dt : ℚ) :
    (stepEntity b e dt).id = e.id := by
  cases b <;> simp [stepEntity, applyGravityJS, applyGravityWasm, apply_ite]

theorem gravityPhase_ids (b : Bool) (dt : ℚ) (es : List PhysEntity) :
    (gravityPhase b dt es).map (·.id) = es.map (·.id) := by
  induction es with
  | nil => rfl
  | cons x rest ih =>
    simp only [gravityPhase, List.map_cons, List.map_map] at ih ⊢
    simp [stepEntity_id, ih]

theorem batches10_small (es : List PhysEntity) (hne : es ≠ [])
    (hlen : es.length ≤ 10) : batches10 es = [es] := by
  match es with
  | [] => exact absurd rfl hne
  | [a1] => rfl
  | [a1, a2] => rfl
  | [a1, a2, a3] => rfl
  | [a1, a2, a3, a4] => rfl
  | [a1, a2, a3, a4, a5] => rfl
  | [a1, a2, a3, a4, a5, a6] => rfl
  | [a1, a2, a3, a4, a5, a6, a7] => rfl
  | [a1, a2, a3, a4, a5, a6, a7, a8] => rfl
  | [a1, a2, a3, a4, a5, a6, a7, a8, a9] => rfl
  | [a1, a2, a3, a4, a5, a6, a7, a8, a9, a10] => rfl
  | a1 :: a2 :: a3 :: a4 :: a5 :: a6 :: a7 :: a8 :: a9 :: a10 :: a11 :: rest =>
    simp at hlen

theorem updateTickEvents_small (b : Bool) (dt : ℚ) (es : List PhysEntity)
    (h : es.length ≤ 10) :
    updateTickEvents b dt es
      = handleDynamicCollisions (gravityPhase b dt es) := by
  rcases hes : es with _ | ⟨a, rest⟩
  · simp [updateTickEvents, batches10, gravityPhase, handleDynamicCollisions]
  · rw [updateTickEvents, batches10_small (a :: rest) (by simp) (hes ▸ h)]
    simp

/-- C5 (amended): dynamic-collision pairs are checked within each batch of
10 only.  When at most 10 entities are simulated (a single batch), the tick
checks every unordered pair of the integrated entities and, for each
overlapping pair of distinct entities, the collision callbacks fire exactly
once per pair (the ordered id pair is emitted exactly once across both
orders); pairs spanning different batches, which exist as soon as there are
11 or more entities, are never checked. -/
theorem dynamic_collision_once_per_pair (b : Bool) (dt : ℚ)
    (es : List PhysEntity) (hnd : (es.map (·.id)).Nodup)
    (hlen : es.length ≤ 10) (x y : PhysEntity)
    (hx : x ∈ gravityPhase b dt es) (hy : y ∈ gravityPhase b dt es)
    (hne : x.id ≠ y.id) :
    updateTickEvents b dt es = handleDynamicCollisions (gravityPhase b dt es) ∧
    (updateTickEvents b dt es).count (x.id, y.id)
      + (updateTickEvents b dt es).count (y.id, x.id)
      = if checkCollision x y then 1 else 0 := by
  have heq := updateTickEvents_small b dt es hlen
  have hnd' : ((gravityPhase b dt es).map (·.id)).Nodup := by
    rw [gravityPhase_ids]; exact hnd
  refine ⟨heq, ?_⟩
  rw [heq]
  exact hdc_count _ hnd' x y hx hy hne


/-- Witness for C5: two overlapping entities in a single batch produce
exactly one callback event for the pair. -/
theorem dynamic_collision_once_per_pair_witness :
    (updateTickEvents false 0 [cexEntity 0, cexEntity 1]).count
        ((stepEntity false (cexEntity 0) 0).id, (stepEntity false (cexEntity 1) 0).id)
      + (updateTickEvents false 0 [cexEntity 0, cexEntity 1]).count
        ((stepEntity false (cexEntity 1) 0).id, (stepEntity false (cexEntity 0) 0).id)
      = if checkCollision (stepEntity false (cexEntity 0) 0)
            (stepEntity false (cexEntity 1) 0) then 1 else 0 := by
  refine (dynamic_collision_once_per_pair false 0 [cexEntity 0, cexEntity 1]
    ?_ (by norm_num) (stepEntity false (cexEntity 0) 0)
    (stepEntity false (cexEntity 1) 0) ?_ ?_ ?_).2
  · simp [cexEntity]
  · simp [gravityPhase]
  · simp [gravityPhase]
  · simp [stepEntity_id, cexEntity]

/-- C5 counterexample: with 11 coincident unit-radius entities, the
integrated entities 0 and 10 overlap, and an unbatched pairwise sweep would
notify the pair, but entity 10 sits in the second batch, so the tick of
PhysicsSystem.update produces no callback event for the pair in either
order. -/
theorem crossBatch_pair_unchecked_cex :
    checkCollision (stepEntity false (cexEntity 0) 1)
        (stepEntity false (cexEntity 10) 1) = true ∧
    (0, 10) ∉ updateTickEvents false 1 cexEntities ∧
    (10, 0) ∉ updateTickEvents false 1 cexEntities ∧
    (0, 10) ∈ handleDynamicCollisions (gravityPhase false 1 cexEntities) := by
  have hstep : ∀ i, stepEntity false (cexEntity i) 1
      = { id := i, position := Vec3.zero, velocity := Vec3.zero, radius := 1,
          onGround := true } := by
    intro i
    simp [stepEntity, applyGravityJS, cexEntity, Vec3.zero, gravity]
  have hcol : checkCollision
      { id := 0, position := Vec3.zero, velocity := Vec3.zero, radius := 1,
        onGround := true }
      { id := 10, position := Vec3.zero, velocity := Vec3.zero, radius := 1,
        onGround := true } = true := by
    unfold checkCollision
    rw [decide_eq_true_iff]
    norm_num [sqDist, Vec3.zero]
  have hbatches : batches10 cexEntities
      = [[cexEntity 0, cexEntity 1, cexEntity 2, cexEntity 3, cexEntity 4,
          cexEntity 5, cexEntity 6, cexEntity 7, cexEntity 8, cexEntity 9],
         [cexEntity 10]] := rfl
  have hupdate : updateTickEvents false 1 cexEntities
      = handleDynamicCollisions (gravityPhase false 1
          [cexEntity 0, cexEntity 1, cexEntity 2, cexEntity 3, cexEntity 4,
           cexEntity 5, cexEntity 6, cexEntity 7, cexEntity 8, cexEntity 9]) := by
    rw [updateTickEvents, hbatches]
    simp [gravityPhase, handleDynamicCollisions]
  have hids : (gravityPhase false 1
      [cexEntity 0, cexEntity 1, cexEntity 2, cexEntity 3, cexEntity 4,
       cexEntity 5, cexEntity 6, cexEntity 7, cexEntity 8,
       cexEntity 9]).map (·.id) = [0, 1, 2, 3, 4, 5, 6, 7, 8, 9] := by
    rw [gravityPhase_ids]
    simp [cexEntity]
  refine ⟨?_, ?_, ?_, ?_⟩
  · rw [hstep 0, hstep 10]; exact hcol
  · rw [hupdate]
    intro hmem
    have h10 := (mem_handleDynamicCollisions hmem).2
    rw [hids] at h10
    simp at h10
  · rw [hupdate]
    intro hmem
    have h10 := (mem_handleDynamicCollisions hmem).1
    rw [hids] at h10
    simp at h10
  · have hlist : gravityPhase false 1 cexEntities
        = stepEntity false (cexEntity 0) 1 ::
          [stepEntity false (cexEntity 1) 1, stepEntity false (cexEntity 2) 1,
           stepEntity false (cexEntity 3) 1, stepEntity false (cexEntity 4) 1,
           stepEntity false (cexEntity 5) 1, stepEntity false (cexEntity 6) 1,
           stepEntity false (cexEntity 7) 1, stepEntity false (cexEntity 8) 1,
           stepEntity false (cexEntity 9) 1, stepEntity false (cexEntity 10) 1] := by
      simp [gravityPhase, cexEntities]
    rw [hlist]
    simp only [handleDynamicCollisions]
    refine List.mem_append_left _ ?_
    simp only [List.mem_map]
    refine ⟨stepEntity false (cexEntity 10) 1, ?_, ?_⟩
    · rw [List.mem_filter]
      refine ⟨by simp, ?_⟩
      rw [hstep 0, hstep 10]
      exact hcol
    · rw [stepEntity_id, stepEntity_id]
      simp [cexEntity]

theorem get_set_self (c : BehaviorContext) (k : String) (v : ℚ) :
    (c.set_value k v).get_value k = v := by
  simp [BehaviorContext.set_value, BehaviorContext.get_value, List.lookup]

theorem get_set_ne (c : BehaviorContext) (k k' : String) (v : ℚ) (h : k' ≠ k) :
    (c.set_value k v).get_value k' = c.get_value k' := by
  have hbeq : (k' == k) = false := beq_eq_false_iff_ne.mpr h
  simp [BehaviorContext.set_value, BehaviorContext.get_value, List.lookup, hbeq]

theorem stepCooldownSlot_get_self (c : BehaviorContext) (k : String) (dt : ℚ) :
    (stepCooldownSlot c k dt).get_value k
      = if c.get_value k > 0 then c.get_value k - dt else c.get_value k := by
  unfold stepCooldownSlot
  by_cases h : c.get_value k > 0 <;> simp [h, get_set_self]

theorem stepCooldownSlot_get_ne (c : BehaviorContext) (k k' : String) (dt : ℚ)
    (h : k' ≠ k) :
    (stepCooldownSlot c k dt).get_value k' = c.get_value k' := by
  unfold stepCooldownSlot
  by_cases hp : c.get_value k > 0 <;> simp [hp, get_set_ne _ _ _ _ h]

/-- C6 (amended): for every slot visited by the AISystem.update loop, a
positive cooldown value decrements by dt with no clamp at zero (a value in
(0, dt) becomes the negative value - dt, not 0), and a nonpositive value is
left untouched, so a slot that overshoots below zero never decreases
further. -/
theorem cooldown_no_clamp (c : BehaviorContext) (dt : ℚ) (k : String)
    (hk : k ∈ slotKeys) :
    (updateCooldowns c dt).get_value k
      = if c.get_value k > 0 then c.get_value k - dt else c.get_value k := by
  fin_cases hk <;>
    simp [updateCooldowns, slotKeys, stepCooldownSlot_get_self,
      stepCooldownSlot_get_ne]

/-- Witness for C6: slot cooldown_2 at 5 with dt = 2 decrements to 3. -/
theorem cooldown_no_clamp_witness :
    (updateCooldowns ctxFive 2).get_value "cooldown_2" = 3 := by
  have h := cooldown_no_clamp ctxFive 2 "cooldown_2" (by simp [slotKeys])
  rw [h]
  norm_num [ctxFive, ctx0, BehaviorContext.get_value, List.lookup]

/-- C6 counterexample: slot cooldown_1 at one half with dt = 1 ends the
tick at minus one half, strictly below zero, not clamped to 0. -/
theorem cooldown_goes_negative_cex :
    (updateCooldowns ctxHalf 1).get_value "cooldown_1" = -(1/2) ∧
    (updateCooldowns ctxHalf 1).get_value "cooldown_1" < 0 := by
  have hval : (updateCooldowns ctxHalf 1).get_value "cooldown_1" = -(1/2) := by
    norm_num [updateCooldowns, slotKeys, stepCooldownSlot,
      BehaviorContext.set_value, BehaviorContext.get_value, List.lookup,
      ctxHalf, ctx0]
  exact ⟨hval, by rw [hval]; norm_num⟩

/-- C8: when the accelerated evaluate throws, the caller of
AISystem.evaluateBehaviorTree still receives a well-formed record: the result
code is 0 (FAILURE, a member of the result-code set), and the action and
parameter fields are read back from the context as rational numbers; no
exception propagates (the embedding is a total function and the throw is
absorbed by the try/catch of WasmInterface.evaluateBehaviorTree). -/
theorem evaluate_throw_fallback (lvl : Option LevelGeom) (tree : BehaviorTree)
    (c : BehaviorContext) (pos : Vec3) (tpos : Option Vec3) (h mh : ℚ)
    (msg : String) (cthrow : BehaviorContext)
    (hthrow : tree.evaluate (refreshContext lvl c pos tpos h mh)
      = .error (msg, cthrow)) :
    evaluateBehaviorTree lvl true (some tree) (some c) pos tpos h mh
      = { result := 0, action := cthrow.get_value "action",
          parameter := cthrow.get_value "action_parameter" } ∧
    (evaluateBehaviorTree lvl true (some tree) (some c) pos tpos h mh).result
      ∈ ({0, 1, 2} : Set ℤ) := by
  have hmain : evaluateBehaviorTree lvl true (some tree) (some c) pos tpos h mh
      = { result := 0, action := cthrow.get_value "action",
          parameter := cthrow.get_value "action_parameter" } := by
    simp [evaluateBehaviorTree, wasmEvaluateBehaviorTree, hthrow]
  exact ⟨hmain, by rw [hmain]; simp⟩

/-- Witness for C8: a tree that always throws, evaluated on the empty
context. -/
theorem evaluate_throw_fallback_witness :
    evaluateBehaviorTree none true (some throwingTree) (some ctx0) Vec3.zero
        none 100 100
      = { result := 0, action := 0, parameter := 0 } := by
  have h := (evaluate_throw_fallback none throwingTree ctx0 Vec3.zero none
    100 100 "forced failure"
    (refreshContext none ctx0 Vec3.zero none 100 100) rfl).1
  rw [h]
  have h1 : ("action" == "target_visible") = false := by decide
  have h2 : ("action_parameter" == "target_visible") = false := by decide
  simp [refreshContext, ctx0, BehaviorContext.set_value,
    BehaviorContext.get_value, List.lookup, h1, h2]

/-- C9: findPath(P, P) returns the single-waypoint route [P] on the
accelerated path and on the fallback path alike, for every point P, given an
attached level whose raycast reports no hit on the zero-length segment from P
to P (THREE normalization guards the zero vector by dividing by length or 1,
and a raycast of range 0 along the zero direction yields no
intersections). -/
theorem findPath_self (g : LevelGeom) (wasmLoaded : Bool) (p : Vec3)
    (hzero : g.intersectSeg p p = false) :
    findPath (some g) wasmLoaded p p = [p] := by
  have hlos : hasLineOfSight (some g) p p = true := by
    simp [hasLineOfSight, hzero]
  cases wasmLoaded with
  | false => simp [findPath, hlos]
  | true =>
    by_cases hm : mockFindPath (⌊p.x⌋ + 50) (⌊p.z⌋ + 50) (⌊p.x⌋ + 50)
        (⌊p.z⌋ + 50) = true <;>
      simp [findPath, hlos, hm]

/-- Witness for C9: the origin under a level with no geometry hits, on both
paths. -/
theorem findPath_self_witness :
    findPath (some emptyLevel) true Vec3.zero Vec3.zero = [Vec3.zero] ∧
    findPath (some emptyLevel) false Vec3.zero Vec3.zero = [Vec3.zero] :=
  ⟨findPath_self emptyLevel true Vec3.zero rfl,
   findPath_self emptyLevel false Vec3.zero rfl⟩

end FpsGame
